import Mathlib

/-!
Verification of `scripts/analyze_document_lengths.py`.

The script is embedded shallowly:
* Python strings become Lean `String`s (contents are inspected through
  `String.toList`, so every character-level operation is explicit);
* the filesystem argument of `analyze_document_lengths` becomes
  `Option (List (String × String))`: `none` models a missing directory
  (where `os.listdir` raises `FileNotFoundError`), `some entries` models the
  directory listing in enumeration order, each entry a
  `(filename, file content)` pair;
* Python exceptions (`FileNotFoundError`, `KeyError`,
  `ZeroDivisionError`) become the `Except PyError` monad;
* Python's stable `sorted(..., key=..., reverse=True)` is modelled by a
  stable insertion sort `sort_by_count_desc` (same observable contract:
  a permutation of the input, pairwise descending on the key, ties kept
  in input order);
* the markdown report written by `generate_optimization_report` becomes a
  `Report` value: the three summary numbers plus the list of body lines
  (the `:.1f` formatting of the average is kept as the exact rational).
-/

/-- Python exceptions raised by the script. -/
inductive PyError where
  | fileNotFoundError
  | keyError
  | zeroDivisionError
deriving DecidableEq, Repr

/-- `starts_with pat l` is true when `pat` is a prefix of `l`
(models Python `str.startswith` / an anchored `^pat` regex match). -/
def starts_with : List Char → List Char → Bool
  | [], _ => true
  | _ :: _, [] => false
  | p :: ps, c :: cs => p = c && starts_with ps cs

/-- `ends_with pat l` is true when `pat` is a suffix of `l`
(models Python `str.endswith`, used for the `.md` filter). -/
def ends_with (pat l : List Char) : Bool :=
  starts_with pat.reverse l.reverse

/-- Number of lines returned by `f.readlines()` on a file whose content is
`content`: 0 for the empty string, otherwise the number of newline
characters plus one more when the content does not end in a newline. -/
def line_count (content : String) : Nat :=
  match content.toList with
  | [] => 0
  | l => l.count '\n' + (if l.getLast? = some '\n' then 0 else 1)

/-- The `length_categories` dict of the script, in insertion order.
The upper bound `none` stands for `float('inf')` on `very_long`. -/
def length_categories : List (String × Nat × Option Nat) :=
  [("short", 1, some 100),
   ("medium", 101, some 300),
   ("long", 301, some 500),
   ("very_long", 501, none)]

/-- `min_lines <= line_count <= max_lines` with `none` as the infinite
upper bound (the loop condition on line 54 of the script). -/
def in_range (n : Nat) (lo : Nat) (hi : Option Nat) : Bool :=
  decide (lo ≤ n) && (match hi with | some h => decide (n ≤ h) | none => true)

/-- The category-assignment loop (lines 52–57): iterate over the given
category ranges in order and keep the first match; `none` when no range
matches (Python leaves `category = None`). -/
def category_of_order (cats : List (String × Nat × Option Nat)) (n : Nat) :
    Option String :=
  (cats.find? fun c => in_range n c.2.1 c.2.2).map fun c => c.1

/-- Category of a line count, using the script's `length_categories` in its
insertion order. -/
def categoryOf (n : Nat) : Option String :=
  category_of_order length_categories n

/-- The `optimization_recommendations` dict (lines 24–29): `none` models a
`KeyError` on a key that is not one of the four categories. -/
def optimization_recommendations (cat : String) : Option String :=
  if cat = "short" then some "No optimization needed"
  else if cat = "medium" then some "Light optimization recommended"
  else if cat = "long" then some "Moderate optimization recommended"
  else if cat = "very_long" then some "Significant optimization needed"
  else none

/-- The priority chain of lines 60–67: strict `>` thresholds on the line
count, evaluated high to low, independent of the category. -/
def priorityOf (n : Nat) : String :=
  if n > 500 then "🔴 HIGH"
  else if n > 400 then "🟡 MEDIUM"
  else if n > 300 then "🟢 LOW"
  else "✅ NONE"

/-- One record of the `results` list built on lines 69–75. -/
structure DocumentRecord where
  filename : String
  line_count : Nat
  category : String
  recommendation : String
  priority : String
deriving DecidableEq, Repr

/-- The per-file body of the scan loop (lines 46–75): count the lines,
assign the category, look up the recommendation and compute the priority.
When no category range matches, `category` is `None` and the dict lookup
`optimization_recommendations[category]` on line 73 raises `KeyError`. -/
def analyze_file (filename : String) (content : String) :
    Except PyError DocumentRecord :=
  let lc := line_count content
  match categoryOf lc with
  | none => .error .keyError
  | some cat =>
    match optimization_recommendations cat with
    | none => .error .keyError
    | some rec => .ok ⟨filename, lc, cat, rec, priorityOf lc⟩

/-- The scan loop over the `.md` entries, stopping at the first raised
exception (lines 41–82, restricted to the record-building effects). -/
def analyze_files : List (String × String) → Except PyError (List DocumentRecord)
  | [] => .ok []
  | e :: rest =>
    match analyze_file e.1 e.2 with
    | .error err => .error err
    | .ok r =>
      match analyze_files rest with
      | .error err => .error err
      | .ok rs => .ok (r :: rs)

/-- The listing entries the scan keeps: those whose filename ends in
`.md` (the `filename.endswith('.md')` test on line 42). -/
def md_entries (entries : List (String × String)) : List (String × String) :=
  entries.filter fun e => ends_with ".md".toList e.1.toList

/-- `analyze_document_lengths`: `none` models a missing docs directory, on
which `os.listdir` (line 41) raises `FileNotFoundError`; otherwise the
entries whose filename ends in `.md` are scanned in order, and afterwards
the summary line 89 computes `total_lines / total_files`, raising
`ZeroDivisionError` when no `.md` file was found. On success the enriched
record list is returned (line 106). -/
def analyze_document_lengths (listing : Option (List (String × String))) :
    Except PyError (List DocumentRecord) :=
  match listing with
  | none => .error .fileNotFoundError
  | some entries =>
    match analyze_files (md_entries entries) with
    | .error err => .error err
    | .ok results =>
      if (md_entries entries).length = 0 then .error .zeroDivisionError
      else .ok results

/-- Closed form of the category assignment for positive line counts,
derived from the four disjoint ranges; used to state uniqueness. -/
def category_closed_form (n : Nat) : String :=
  if n ≤ 100 then "short"
  else if n ≤ 300 then "medium"
  else if n ≤ 500 then "long"
  else "very_long"

theorem find?_eq_of_mem_of_unique {α : Type} (p : α → Bool) (a : α) :
    ∀ l : List α, a ∈ l → p a = true →
      (∀ b ∈ l, p b = true → b = a) → l.find? p = some a := by
  intro l
  induction l with
  | nil => intro h; simp at h
  | cons x xs ih =>
    intro hmem hpa huniq
    by_cases hx : p x = true
    · have hxa : x = a := huniq x (List.mem_cons_self x xs) hx
      subst hxa
      simp [List.find?_cons_of_pos _ hx]
    · have hax : a ≠ x := fun h => hx (h ▸ hpa)
      have hmem' : a ∈ xs := by
        rcases List.mem_cons.mp hmem with h | h
        · exact absurd h hax
        · exact h
      rw [List.find?_cons_of_neg _ (by simp [hx])]
      exact ih hmem' hpa fun b hb hpb => huniq b (List.mem_cons_of_mem x hb) hpb

/-- For a positive line count, any permutation of the category ranges
assigns the closed-form category: the four ranges are pairwise disjoint,
so exactly one of them matches and the iteration order is irrelevant. -/
theorem category_of_order_eq (cats : List (String × Nat × Option Nat))
    (hperm : cats.Perm length_categories) (n : Nat) (h : 1 ≤ n) :
    category_of_order cats n = some (category_closed_form n) := by
  have mem_cats : ∀ b : String × Nat × Option Nat,
      b ∈ cats ↔ b ∈ length_categories := fun b => hperm.mem_iff
  rcases le_or_lt n 100 with h1 | h1
  · have he : ("short", 1, some 100) ∈ cats := by
      rw [mem_cats]; simp [length_categories]
    have hp : in_range n 1 (some 100) = true := by
      simp [in_range]; omega
    have hu : ∀ b ∈ cats, in_range n b.2.1 b.2.2 = true →
        b = ("short", 1, some 100) := by
      intro b hb hbp
      have hb' := (mem_cats b).mp hb
      simp [length_categories] at hb'
      rcases hb' with rfl | rfl | rfl | rfl <;>
        simp [in_range] at hbp <;> first | rfl | omega
    rw [category_of_order, find?_eq_of_mem_of_unique _ _ _ he hp hu]
    simp [category_closed_form, h1]
  rcases le_or_lt n 300 with h2 | h2
  · have he : ("medium", 101, some 300) ∈ cats := by
      rw [mem_cats]; simp [length_categories]
    have hp : in_range n 101 (some 300) = true := by
      simp [in_range]; omega
    have hu : ∀ b ∈ cats, in_range n b.2.1 b.2.2 = true →
        b = ("medium", 101, some 300) := by
      intro b hb hbp
      have hb' := (mem_cats b).mp hb
      simp [length_categories] at hb'
      rcases hb' with rfl | rfl | rfl | rfl <;>
        simp [in_range] at hbp <;> first | rfl | omega
    rw [category_of_order, find?_eq_of_mem_of_unique _ _ _ he hp hu]
    have : ¬ n ≤ 100 := by omega
    simp [category_closed_form, this, h2]
  rcases le_or_lt n 500 with h3 | h3
  · have he : ("long", 301, some 500) ∈ cats := by
      rw [mem_cats]; simp [length_categories]
    have hp : in_range n 301 (some 500) = true := by
      simp [in_range]; omega
    have hu : ∀ b ∈ cats, in_range n b.2.1 b.2.2 = true →
        b = ("long", 301, some 500) := by
      intro b hb hbp
      have hb' := (mem_cats b).mp hb
      simp [length_categories] at hb'
      rcases hb' with rfl | rfl | rfl | rfl <;>
        simp [in_range] at hbp <;> first | rfl | omega
    rw [category_of_order, find?_eq_of_mem_of_unique _ _ _ he hp hu]
    have h1' : ¬ n ≤ 100 := by omega
    have h2' : ¬ n ≤ 300 := by omega
    simp [category_closed_form, h1', h2', h3]
  · have he : ("very_long", 501, (none : Option Nat)) ∈ cats := by
      rw [mem_cats]; simp [length_categories]
    have hp : in_range n 501 none = true := by
      simp [in_range]; omega
    have hu : ∀ b ∈ cats, in_range n b.2.1 b.2.2 = true →
        b = ("very_long", 501, (none : Option Nat)) := by
      intro b hb hbp
      have hb' := (mem_cats b).mp hb
      simp [length_categories] at hb'
      rcases hb' with rfl | rfl | rfl | rfl <;>
        simp [in_range] at hbp <;> first | rfl | omega
    rw [category_of_order, find?_eq_of_mem_of_unique _ _ _ he hp hu]
    have h1' : ¬ n ≤ 100 := by omega
    have h2' : ¬ n ≤ 300 := by omega
    have h3' : ¬ n ≤ 500 := by omega
    simp [category_closed_form, h1', h2', h3']

/-- C1 counterexample: at `n = 0` no category range matches, so the
classifier assigns no category at all (Python leaves `category = None`),
contradicting the claim that every non-negative integer gets one of the
four labels. -/
theorem claim1_counterexample : categoryOf 0 = none := by decide

/-- C1 (amended): for every positive line count `n` the classifier assigns
exactly one of the four category labels, uniquely determined by the
disjoint inclusive ranges (so independent of the order in which the
ranges are checked), with the boundary values 100→short, 101→medium,
300→medium, 301→long, 500→long, 501→very_long. (At `n = 0` no range
matches and no label is assigned.) -/
theorem claim1_category_unique (n : Nat) (h : 1 ≤ n) :
    categoryOf n = some (category_closed_form n) ∧
    category_closed_form n ∈ ["short", "medium", "long", "very_long"] ∧
    (∀ cats, cats.Perm length_categories →
      category_of_order cats n = categoryOf n) ∧
    categoryOf 100 = some "short" ∧ categoryOf 101 = some "medium" ∧
    categoryOf 300 = some "medium" ∧ categoryOf 301 = some "long" ∧
    categoryOf 500 = some "long" ∧ categoryOf 501 = some "very_long" := by
  refine ⟨category_of_order_eq _ (List.Perm.refl _) n h, ?_, ?_,
    by decide, by decide, by decide, by decide, by decide, by decide⟩
  · unfold category_closed_form
    split_ifs <;> simp
  · intro cats hperm
    rw [category_of_order_eq cats hperm n h, categoryOf,
      category_of_order_eq _ (List.Perm.refl _) n h]

theorem claim1_category_unique_witness :
    categoryOf 301 = some (category_closed_form 301) :=
  (claim1_category_unique 301 (by decide)).1

/-- C2: the priority is HIGH exactly when `n > 500`, MEDIUM exactly when
`400 < n ≤ 500`, LOW exactly when `300 < n ≤ 400` and NONE exactly when
`n ≤ 300`; `priorityOf` reads nothing but the line count, so the value is
independent of the category assignment. -/
theorem claim2_priority_bands (n : Nat) :
    (priorityOf n = "🔴 HIGH" ↔ 500 < n) ∧
    (priorityOf n = "🟡 MEDIUM" ↔ 400 < n ∧ n ≤ 500) ∧
    (priorityOf n = "🟢 LOW" ↔ 300 < n ∧ n ≤ 400) ∧
    (priorityOf n = "✅ NONE" ↔ n ≤ 300) := by
  unfold priorityOf
  split_ifs with h1 h2 h3 <;> refine ⟨?_, ?_, ?_, ?_⟩ <;>
    simp_all <;> omega

/-- Stable insertion used to model Python's stable
`sorted(..., key=lambda x: x['line_count'], reverse=True)`: a record is
placed after every record with a strictly larger count and before the
first record whose count is smaller or equal, so records with equal
counts keep their original relative order. -/
def insert_by_count_desc (r : DocumentRecord) :
    List DocumentRecord → List DocumentRecord
  | [] => [r]
  | x :: xs =>
    if r.line_count < x.line_count then x :: insert_by_count_desc r xs
    else r :: x :: xs

/-- Stable sort by descending line count (Python
`sorted(results, key=lambda x: x['line_count'], reverse=True)`). -/
def sort_by_count_desc : List DocumentRecord → List DocumentRecord
  | [] => []
  | x :: xs => insert_by_count_desc x (sort_by_count_desc xs)

/-- Records sorted in weakly descending order of line count. -/
def count_desc (a b : DocumentRecord) : Prop :=
  b.line_count ≤ a.line_count

instance : DecidableRel count_desc := fun a b =>
  inferInstanceAs (Decidable (b.line_count ≤ a.line_count))

theorem insert_by_count_desc_perm (r : DocumentRecord)
    (l : List DocumentRecord) :
    (insert_by_count_desc r l).Perm (r :: l) := by
  induction l with
  | nil => simp [insert_by_count_desc]
  | cons x xs ih =>
    rw [insert_by_count_desc]
    split
    · exact (ih.cons x).trans (List.Perm.swap r x xs)
    · exact List.Perm.refl _

theorem sort_by_count_desc_perm (l : List DocumentRecord) :
    (sort_by_count_desc l).Perm l := by
  induction l with
  | nil => exact List.Perm.refl _
  | cons x xs ih =>
    exact (insert_by_count_desc_perm x (sort_by_count_desc xs)).trans (ih.cons x)

theorem insert_by_count_desc_pairwise (r : DocumentRecord)
    (l : List DocumentRecord) (hl : l.Pairwise count_desc) :
    (insert_by_count_desc r l).Pairwise count_desc := by
  induction l with
  | nil => simp [insert_by_count_desc, List.pairwise_cons]
  | cons x xs ih =>
    rw [List.pairwise_cons] at hl
    rw [insert_by_count_desc]
    split
    · rename_i hlt
      rw [List.pairwise_cons]
      refine ⟨?_, ih hl.2⟩
      intro y hy
      have hy' := (insert_by_count_desc_perm r xs).mem_iff.mp hy
      rcases List.mem_cons.mp hy' with rfl | hy''
      · unfold count_desc; omega
      · exact hl.1 y hy''
    · rename_i hge
      rw [List.pairwise_cons]
      refine ⟨?_, List.pairwise_cons.mpr hl⟩
      intro y hy
      rcases List.mem_cons.mp hy with rfl | hy''
      · unfold count_desc; omega
      · have := hl.1 y hy''
        unfold count_desc at *
        omega

theorem sort_by_count_desc_pairwise (l : List DocumentRecord) :
    (sort_by_count_desc l).Pairwise count_desc := by
  induction l with
  | nil => simp [sort_by_count_desc]
  | cons x xs ih => exact insert_by_count_desc_pairwise x _ ih

/-- The optimization-candidate list of lines 100–104: the records whose
priority string is HIGH or MEDIUM, sorted by line count descending. -/
def optimization_candidates (results : List DocumentRecord) :
    List DocumentRecord :=
  sort_by_count_desc (results.filter fun r =>
    r.priority = "🔴 HIGH" || r.priority = "🟡 MEDIUM")

/-- C7: the candidate list holds exactly the records of priority HIGH or
MEDIUM — as a permutation of the filtered list and, elementwise, a record
appears in it exactly when it is a scanned record with one of those two
priorities — and it is pairwise sorted by line count descending. -/
theorem claim7_candidates (results : List DocumentRecord) :
    (optimization_candidates results).Perm (results.filter fun r =>
      r.priority = "🔴 HIGH" || r.priority = "🟡 MEDIUM") ∧
    (∀ r, r ∈ optimization_candidates results ↔
      r ∈ results ∧ (r.priority = "🔴 HIGH" ∨ r.priority = "🟡 MEDIUM")) ∧
    (optimization_candidates results).Pairwise count_desc := by
  refine ⟨sort_by_count_desc_perm _, ?_, sort_by_count_desc_pairwise _⟩
  intro r
  rw [optimization_candidates, (sort_by_count_desc_perm _).mem_iff,
    List.mem_filter]
  simp [Bool.or_eq_true, decide_eq_true_eq]

/-- `category.upper().replace('_', ' ')` (lines 79 and 228). -/
def display_category (cat : String) : String :=
  String.mk (cat.toList.map fun c =>
    let u := c.toUpper
    if u = '_' then ' ' else u)

/-- The tiered strategy block of lines 231–245: header, three bullets
chosen by the strict `>` thresholds on the line count, and a blank line —
written only when the record's priority is not `"✅ NONE"`. -/
def strategy_lines (r : DocumentRecord) : List String :=
  if r.priority ≠ "✅ NONE" then
    "**Optimization Strategy**:" ::
    (if r.line_count > 500 then
      ["- Document splitting into focused guides",
       "- Content extraction to reference documents",
       "- Enhanced navigation with detailed TOC"]
     else if r.line_count > 400 then
      ["- Section extraction for major topics",
       "- Content summarization with references",
       "- Modular documentation approach"]
     else
      ["- Content density optimization",
       "- Navigation enhancement",
       "- Cross-reference improvement"]) ++ [""]
  else []

/-- One per-document section of the report (lines 226–245). -/
def document_section (r : DocumentRecord) : List String :=
  ["### " ++ r.filename,
   "",
   "- **Line Count**: " ++ toString r.line_count ++ " lines",
   "- **Category**: " ++ display_category r.category,
   "- **Priority**: " ++ r.priority,
   "- **Recommendation**: " ++ r.recommendation,
   ""] ++ strategy_lines r

/-- The static implementation plan of lines 248–268. -/
def implementation_plan_lines : List String :=
  ["## Implementation Plan",
   "",
   "### Phase 1: High Priority Documents",
   "- Target: Documents with 500+ lines",
   "- Goal: 60% length reduction",
   "- Timeline: 2 weeks",
   "",
   "### Phase 2: Medium Priority Documents",
   "- Target: Documents with 400-499 lines",
   "- Goal: 40% length reduction",
   "- Timeline: 2 weeks",
   "",
   "### Phase 3: Low Priority Documents",
   "- Target: Documents with 300-399 lines",
   "- Goal: 20% length reduction",
   "- Timeline: 1 week",
   "",
   "### Phase 4: Review and Finalization",
   "- Cross-reference validation",
   "- User testing",
   "- Documentation index updates",
   "- Timeline: 1 week",
   ""]

/-- The static expected-benefits block and provenance footer of
lines 270–277 (the generation date is a constant string in the source). -/
def benefits_and_footer_lines : List String :=
  ["## Expected Benefits",
   "",
   "- **Improved Navigation**: 50% faster information discovery",
   "- **Better Maintainability**: 40% faster updates",
   "- **Enhanced Usability**: 30% improvement in user satisfaction",
   "- **Sustainable Quality**: Establish documentation standards",
   "",
   "## Report Generated: 2025-12-07",
   "## Analysis Performed By: Document Optimization Script"]

/-- The markdown report as a value: the three summary numbers of
lines 219–221 plus the remaining body lines in order. The `:.1f`
rendering of the average is kept as the exact rational it formats. -/
structure Report where
  total_files : Nat
  total_lines : Nat
  average_length : Rat
  body : List String
deriving DecidableEq, Repr

/-- The report body from the detailed-findings loop onwards: the
per-document sections are emitted while iterating over
`sorted(results, key=lambda x: x['line_count'], reverse=True)`
(line 225), followed by the static blocks. -/
def report_body (results : List DocumentRecord) : List String :=
  ["## Detailed Findings", ""] ++
  (sort_by_count_desc results).foldr
    (fun r acc => document_section r ++ acc) [] ++
  implementation_plan_lines ++ benefits_and_footer_lines

/-- `generate_optimization_report` (lines 213–279): on an empty record
list, line 221 computes `sum(...) / len(results)` and raises
`ZeroDivisionError`; otherwise the report value is produced. -/
def generate_optimization_report (results : List DocumentRecord) :
    Except PyError Report :=
  if results.length = 0 then .error .zeroDivisionError
  else .ok
    { total_files := results.length
      total_lines := (results.map fun r => r.line_count).sum
      average_length :=
        (((results.map fun r => r.line_count).sum : Nat) : Rat) /
          results.length
      body := report_body results }

/-- C8: the per-document sections are emitted in weakly descending order
of line count over all the records (the iteration list is a permutation
of the records, pairwise descending), and a section carries a strategy
block exactly when the record's priority is not NONE, with the splitting
bullets exactly when `line_count > 500`, the extraction bullets exactly
when `400 < line_count ≤ 500`, and the density bullets otherwise. -/
theorem claim8_report_sections (results : List DocumentRecord) :
    (sort_by_count_desc results).Perm results ∧
    (sort_by_count_desc results).Pairwise count_desc ∧
    ∀ r : DocumentRecord,
      (strategy_lines r ≠ [] ↔ r.priority ≠ "✅ NONE") ∧
      ("- Document splitting into focused guides" ∈ strategy_lines r ↔
        (r.priority ≠ "✅ NONE" ∧ 500 < r.line_count)) ∧
      ("- Section extraction for major topics" ∈ strategy_lines r ↔
        (r.priority ≠ "✅ NONE" ∧ 400 < r.line_count ∧ r.line_count ≤ 500)) ∧
      ("- Content density optimization" ∈ strategy_lines r ↔
        (r.priority ≠ "✅ NONE" ∧ r.line_count ≤ 400)) := by
  refine ⟨sort_by_count_desc_perm _, sort_by_count_desc_pairwise _, ?_⟩
  intro r
  unfold strategy_lines
  by_cases hp : r.priority = "✅ NONE"
  · simp [hp]
  · split_ifs with h1 h2 <;> simp [hp] <;> omega

/-- C3: a zero-line file (empty content) matches no category range, so the
recommendation lookup raises `KeyError` and the whole scan fails — the
code does not default the category to `short` and does not survive a
zero-line file. -/
theorem claim3_zero_line_file_raises :
    analyze_document_lengths (some [("empty.md", "")]) = .error .keyError := by
  rfl

/-- C4: on a directory that exists but contains no `.md` file, the console
summary block is still reached and line 89 divides `total_lines` by
`total_files = 0`, raising `ZeroDivisionError` — the summary block is not
skipped and no no-files-found notice exists in the code. -/
theorem claim4_zero_files_divides :
    analyze_document_lengths (some [("readme.txt", "hello")]) =
      .error .zeroDivisionError := by
  rfl

/-- C5: on the empty record list, line 221 divides the line-count sum by
`len(results) = 0`, raising `ZeroDivisionError` — the markdown renderer
does not produce a zero-totals report. -/
theorem claim5_empty_report_divides :
    generate_optimization_report [] = .error .zeroDivisionError := by
  rfl

/-- C6: when the target directory does not exist, `os.listdir` on line 41
raises `FileNotFoundError`; the exception is uncaught, so the collector
does not return an empty record list and the pipeline aborts. -/
theorem claim6_missing_directory_raises :
    analyze_document_lengths none = .error .fileNotFoundError := by
  rfl

/-- Python `content.split('\n')` — the segments between newline
characters, used to model where the `re.MULTILINE` anchor `^` matches. -/
def split_lines : List Char → List (List Char)
  | [] => [[]]
  | c :: rest =>
    if c = '\n' then [] :: split_lines rest
    else
      match split_lines rest with
      | [] => [[c]]
      | l :: ls => (c :: l) :: ls

/-- `len(re.findall('^' + marker, content, re.MULTILINE))`: the number of
lines of `content` that start with `marker` (lines 116–121 and 125). -/
def multiline_match_count (content : String) (marker : String) : Nat :=
  (split_lines content.toList).countP fun l => starts_with marker.toList l

/-- The total of the six `heading_counts` entries (lines 115–122). -/
def heading_lines_total (content : String) : Nat :=
  multiline_match_count content "# " + multiline_match_count content "## " +
  multiline_match_count content "### " + multiline_match_count content "#### " +
  multiline_match_count content "##### " + multiline_match_count content "###### "

/-- Fenced code blocks: the number of lines starting with three backticks,
halved by integer division (line 125). -/
def code_block_count (content : String) : Nat :=
  multiline_match_count content "```" / 2

/-- `total_lines = content.count('\n') + 1` (line 134). -/
def total_lines (content : String) : Nat :=
  content.toList.count '\n' + 1

/-- `substantive_lines` of line 135 — an `Int`, since Python subtraction
can go below zero here. -/
def substantive_lines (content : String) : Int :=
  (total_lines content : Int) - heading_lines_total content -
    3 * code_block_count content

/-- The guarded density expression of line 136, as a function of the two
variables it reads: `(substantive / total) * 100` when `total > 0`,
else `0`. -/
def density_calc (substantive : Int) (total : Nat) : Rat :=
  if 0 < total then (substantive : Rat) / total * 100 else 0

/-- Information density of a document's content. -/
def density (content : String) : Rat :=
  density_calc (substantive_lines content) (total_lines content)

/-- C9: the information density equals
`(total_lines − heading lines − 3·code blocks) / total_lines × 100`
(the guard of line 136 is passed because `total_lines` is a newline count
plus one, hence never zero), and for a zero `total_lines` the guarded
expression yields `0` rather than performing the division. -/
theorem claim9_density (content : String) :
    density content =
      ((total_lines content : Rat) - heading_lines_total content -
        3 * code_block_count content) / total_lines content * 100 ∧
    ∀ s : Int, density_calc s 0 = 0 := by
  constructor
  · have h : 0 < total_lines content := by unfold total_lines; omega
    rw [density, density_calc, if_pos h, substantive_lines]
    push_cast
    ring
  · intro s
    simp [density_calc]

/-- Two lists of records that are permutations of each other, both sorted
weakly descending by line count, are equal as soon as the line counts are
pairwise distinct. -/
theorem sorted_perm_eq_of_nodup_counts :
    ∀ {l₁ l₂ : List DocumentRecord}, l₁.Perm l₂ →
      l₁.Pairwise count_desc → l₂.Pairwise count_desc →
      (l₁.map fun r => r.line_count).Nodup → l₁ = l₂ := by
  intro l₁
  induction l₁ with
  | nil =>
    intro l₂ hp _ _ _
    exact (hp.symm.eq_nil).symm
  | cons a t₁ ih =>
    intro l₂ hp hs₁ hs₂ hn
    cases l₂ with
    | nil => exact absurd hp.eq_nil (by simp)
    | cons b t₂ =>
      have hs₁' := List.pairwise_cons.mp hs₁
      have hs₂' := List.pairwise_cons.mp hs₂
      have hab : a = b := by
        by_contra hne
        have ha2 : a ∈ b :: t₂ := hp.mem_iff.mp (List.mem_cons_self a t₁)
        have ha2' : a ∈ t₂ := by
          rcases List.mem_cons.mp ha2 with h | h
          · exact absurd h hne
          · exact h
        have hb1 : b ∈ a :: t₁ := hp.mem_iff.mpr (List.mem_cons_self b t₂)
        have hb1' : b ∈ t₁ := by
          rcases List.mem_cons.mp hb1 with h | h
          · exact absurd h.symm hne
          · exact h
        have h1 : a.line_count ≤ b.line_count := hs₂'.1 a ha2'
        have h2 : b.line_count ≤ a.line_count := hs₁'.1 b hb1'
        have heq : a.line_count = b.line_count := le_antisymm h1 h2
        rw [List.map_cons, List.nodup_cons] at hn
        exact hn.1 (heq ▸ List.mem_map_of_mem (fun r => r.line_count) hb1')
      subst hab
      have hp' := hp.cons_inv
      have hn' : (t₁.map fun r => r.line_count).Nodup := by
        rw [List.map_cons, List.nodup_cons] at hn
        exact hn.2
      rw [ih hp' hs₁'.2 hs₂'.2 hn']

/-- Scanning a permuted listing succeeds on the same files and produces a
permuted record list (each record is a function of its own entry only a
nd the scan stops at the first failing file, which permuting cannot
create). -/
theorem analyze_files_perm :
    ∀ {l₁ l₂ : List (String × String)}, l₁.Perm l₂ →
      ∀ {r₁ : List DocumentRecord}, analyze_files l₁ = .ok r₁ →
        ∃ r₂, analyze_files l₂ = .ok r₂ ∧ r₁.Perm r₂ := by
  intro l₁ l₂ hp
  induction hp with
  | nil =>
    intro r₁ h₁
    exact ⟨r₁, h₁, List.Perm.refl _⟩
  | cons x hl ih =>
    rename_i t₁ t₂
    intro r₁ h₁
    simp only [analyze_files] at h₁ ⊢
    cases hf : analyze_file x.1 x.2 with
    | error e => simp [hf] at h₁
    | ok rec =>
      cases hr : analyze_files t₁ with
      | error e => simp [hf, hr] at h₁
      | ok rs =>
        simp only [hf, hr] at h₁
        obtain ⟨rs₂, hrs₂, hperm⟩ := ih hr
        simp only [hrs₂]
        refine ⟨rec :: rs₂, rfl, ?_⟩
        injection h₁ with h₁'
        rw [← h₁']
        exact hperm.cons rec
  | swap x y l =>
    intro r₁ h₁
    simp only [analyze_files] at h₁ ⊢
    cases hfy : analyze_file y.1 y.2 with
    | error e => simp [hfy] at h₁
    | ok recy =>
      cases hfx : analyze_file x.1 x.2 with
      | error e => simp [hfx, hfy] at h₁
      | ok recx =>
        cases hr : analyze_files l with
        | error e => simp [hfx, hfy, hr] at h₁
        | ok rs =>
          simp only [hfx, hfy, hr] at h₁ ⊢
          refine ⟨recx :: recy :: rs, rfl, ?_⟩
          injection h₁ with h₁'
          rw [← h₁']
          exact List.Perm.swap recx recy rs
  | trans h12 h23 ih12 ih23 =>
    intro r₁ h₁
    obtain ⟨r₂, h₂, hp₂⟩ := ih12 h₁
    obtain ⟨r₃, h₃, hp₃⟩ := ih23 h₂
    exact ⟨r₃, h₃, hp₂.trans hp₃⟩

/-- Permuting the record list does not change the generated report as long
as the line counts are pairwise distinct: the summary numbers are
order-free aggregates and the stable descending sort then has a unique
result. -/
theorem generate_report_perm {l₁ l₂ : List DocumentRecord} (hp : l₁.Perm l₂)
    (hn : (l₁.map fun r => r.line_count).Nodup) :
    generate_optimization_report l₁ = generate_optimization_report l₂ := by
  have hlen := hp.length_eq
  have hsort : sort_by_count_desc l₁ = sort_by_count_desc l₂ := by
    apply sorted_perm_eq_of_nodup_counts
    · exact (sort_by_count_desc_perm l₁).trans
        (hp.trans (sort_by_count_desc_perm l₂).symm)
    · exact sort_by_count_desc_pairwise _
    · exact sort_by_count_desc_pairwise _
    · have hmp : ((sort_by_count_desc l₁).map fun r => r.line_count).Perm
          (l₁.map fun r => r.line_count) :=
        (sort_by_count_desc_perm l₁).map _
      exact hmp.nodup_iff.mpr hn
  have hsum : (l₁.map fun r => r.line_count).sum =
      (l₂.map fun r => r.line_count).sum :=
    (hp.map _).sum_eq
  unfold generate_optimization_report report_body
  rw [hlen, hsum, hsort]

/-- The full pipeline of the `__main__` block (lines 281–286): scan the
listing, then render the markdown report from the enriched records;
any raised exception aborts. -/
def run_pipeline (listing : Option (List (String × String))) :
    Except PyError Report :=
  match analyze_document_lengths listing with
  | .error e => .error e
  | .ok results => generate_optimization_report results

/-- A directory listing of two two-line files, and the same listing in the
opposite enumeration order. -/
def tie_listing_ab : List (String × String) :=
  [("a.md", "x\ny\n"), ("b.md", "x\ny\n")]

/-- `tie_listing_ab` enumerated the other way round. -/
def tie_listing_ba : List (String × String) :=
  [("b.md", "x\ny\n"), ("a.md", "x\ny\n")]

/-- C10 counterexample: the same two files (both 2 lines long) enumerated
in the two possible orders give different markdown reports — Python's
stable descending sort keeps records with equal line counts in
enumeration order, so the per-document sections swap and the output is
not byte-identical (the only date field is a constant string, so it is
not the cause). -/
theorem claim10_counterexample :
    tie_listing_ab.Perm tie_listing_ba ∧
    run_pipeline (some tie_listing_ab) ≠ run_pipeline (some tie_listing_ba) := by
  refine ⟨by decide, fun h => ?_⟩
  have hb := congrArg
    (fun x => match x with
      | Except.ok rep => rep.body
      | Except.error _ => ([] : List String)) h
  exact absurd hb (by decide)

/-- C10 (amended): for a fixed directory listing the pipeline is a pure
function, and the markdown report is independent of the enumeration
order whenever the scanned files' line counts are pairwise distinct;
records with equal line counts keep enumeration order in the
per-document sections, so only then can the order show in the output. -/
theorem claim10_order_invariance (e₁ e₂ : List (String × String))
    (hp : e₁.Perm e₂) (r₁ r₂ : List DocumentRecord)
    (h₁ : analyze_document_lengths (some e₁) = .ok r₁)
    (h₂ : analyze_document_lengths (some e₂) = .ok r₂)
    (hn : (r₁.map fun r => r.line_count).Nodup) :
    generate_optimization_report r₁ = generate_optimization_report r₂ := by
  simp only [analyze_document_lengths] at h₁ h₂
  cases ha₁ : analyze_files (md_entries e₁) with
  | error e => simp [ha₁] at h₁
  | ok res₁ =>
    have hmd : (md_entries e₁).Perm (md_entries e₂) := hp.filter _
    obtain ⟨res₂, ha₂, hperm⟩ := analyze_files_perm hmd ha₁
    rw [ha₁] at h₁
    rw [ha₂] at h₂
    have h₁' : (if (md_entries e₁).length = 0 then
        (Except.error PyError.zeroDivisionError :
          Except PyError (List DocumentRecord))
        else .ok res₁) = .ok r₁ := h₁
    have h₂' : (if (md_entries e₂).length = 0 then
        (Except.error PyError.zeroDivisionError :
          Except PyError (List DocumentRecord))
        else .ok res₂) = .ok r₂ := h₂
    by_cases hz : (md_entries e₁).length = 0
    · rw [if_pos hz] at h₁'
      exact absurd h₁' (by simp)
    · rw [if_neg hz] at h₁'
      rw [if_neg (by rw [← hmd.length_eq]; exact hz)] at h₂'
      injection h₁' with h₁''
      injection h₂' with h₂''
      subst h₁''
      subst h₂''
      exact generate_report_perm hperm hn

theorem claim10_order_invariance_witness :
    generate_optimization_report
        [⟨"a.md", 1, "short", "No optimization needed", "✅ NONE"⟩,
         ⟨"b.md", 2, "short", "No optimization needed", "✅ NONE"⟩] =
      generate_optimization_report
        [⟨"b.md", 2, "short", "No optimization needed", "✅ NONE"⟩,
         ⟨"a.md", 1, "short", "No optimization needed", "✅ NONE"⟩] :=
  claim10_order_invariance
    [("a.md", "x\n"), ("b.md", "x\nx\n")]
    [("b.md", "x\nx\n"), ("a.md", "x\n")]
    (by decide) _ _ (by rfl) (by rfl) (by decide)
